import Mathlib

/-!
# Verification of the NBA analytics dashboard data pipeline

A shallow embedding of the data cleaning and aggregation pipeline of
`src/app.py` (a pandas/streamlit dashboard).  Tables are lists of rows;
cells read from CSV are numbers, strings, or null (NaN); all arithmetic
is exact over `ℚ`.  Python exceptions are modelled with `Except Unit`.

Group-by results are modelled one row per distinct key; the display
order of the group keys is not modelled (no verified property depends
on it), keys are listed via `List.dedup`.
-/

/-- A raw table cell as produced by `pd.read_csv`: a parsed number,
a string, or null (`NaN`, for an empty / missing field). -/
inductive Value where
  | num (q : ℚ)
  | str (s : String)
  | null
deriving DecidableEq

/-- Numeric value of a digit string (list of `'0'`-`'9'` characters). -/
def digitsToNat (cs : List Char) : ℕ :=
  cs.foldl (fun a c => 10 * a + (c.toNat - 48)) 0

/-- Split a character list on every occurrence of `c`, keeping empty
pieces, as Python's `str.split(sep)` does for a one-character separator
(`"12:".split(':') == ["12", ""]`). -/
def splitOnChar (c : Char) : List Char → List (List Char)
  | [] => [[]]
  | x :: xs =>
    if x = c then
      [] :: splitOnChar c xs
    else
      match splitOnChar c xs with
      | r :: rs => (x :: r) :: rs
      | [] => [[x]]

/-- Decimal numeral without sign: digits with at most one decimal point
and at least one digit, as accepted by Python `float` / pandas
(`"12"`, `"12.5"`, `".5"`, `"12."`; not `""`, `"."`, `"1.2.3"`). -/
def parseUnsigned (cs : List Char) : Option ℚ :=
  match splitOnChar '.' cs with
  | [ip] =>
    if !ip.isEmpty && ip.all Char.isDigit then
      some (digitsToNat ip)
    else none
  | [ip, fp] =>
    if !(ip.isEmpty && fp.isEmpty) && ip.all Char.isDigit && fp.all Char.isDigit then
      some ((digitsToNat ip : ℚ) + (digitsToNat fp : ℚ) / 10 ^ fp.length)
    else none
  | _ => none

/-- Parse a decimal numeral with an optional leading sign, the common
fragment of Python `float(str)` and `pd.to_numeric` string parsing. -/
def parseFloatChars (cs : List Char) : Option ℚ :=
  match cs with
  | '-' :: rest => (parseUnsigned rest).map (fun q => -q)
  | '+' :: rest => parseUnsigned rest
  | _ => parseUnsigned cs

/-- Python `float(s)` (resp. pandas numeric parsing) on a string. -/
def parseFloat (s : String) : Option ℚ :=
  parseFloatChars s.toList

/-- Model of `pd.to_numeric(x, errors='coerce')` on one cell: numbers pass
through, strings are parsed, anything unparseable (and null) becomes
null.  Total — the `coerce` mode never raises. -/
def coerceNumeric : Value → Option ℚ
  | .num q => some q
  | .str s => parseFloat s
  | .null => none

/-- Model of `convert_minutes` of `src/app.py`:

```python
def convert_minutes(x):
    if isinstance(x, str) and ':' in x:
        m, s = x.split(':')
        return float(m) + float(s) / 60
    return pd.to_numeric(x, errors='coerce')
```

A string cell containing a colon is split on every colon and unpacked
into exactly two parts, each converted by `float`; failure of the
unpacking (not exactly two parts) or of either `float` raises a
`ValueError`, modelled as `Except.error ()`.  Every other cell goes
through `pd.to_numeric(_, errors='coerce')`, yielding null on failure. -/
def convert_minutes (x : Value) : Except Unit (Option ℚ) :=
  match x with
  | .str s =>
    if s.toList.contains ':' then
      match splitOnChar ':' s.toList with
      | [m, sec] =>
        match parseFloatChars m, parseFloatChars sec with
        | some a, some b => .ok (some (a + b / 60))
        | _, _ => .error ()
      | _ => .error ()
    else .ok (parseFloat s)
  | v => .ok (coerceNumeric v)

/-- Does a cell hit the colon branch of `convert_minutes`
(`isinstance(x, str) and ':' in x`)? -/
def isColonString : Value → Bool
  | .str s => s.toList.contains ':'
  | _ => false

/-! ## Table rows -/

/-- A raw `games` row (the columns the pipeline reads). -/
structure RawGameRow where
  season : Int
  homeTeamId : Int
  ptsHome : Value
  ptsAway : Value
deriving DecidableEq

/-- A cleaned `games` row: `PTS_home` / `PTS_away` numeric. -/
structure GameRow where
  season : Int
  homeTeamId : Int
  ptsHome : ℚ
  ptsAway : ℚ
deriving DecidableEq

/-- A raw `games_details` row (the columns the pipeline reads). -/
structure RawDetailRow where
  playerId : Int
  pts : Value
  ast : Value
  reb : Value
  minCell : Value
deriving DecidableEq

/-- A cleaned `games_details` row: `PTS`/`AST`/`REB` coerced (possibly
null), `MIN` a non-null number (null-`MIN` rows are dropped). -/
structure DetailRow where
  playerId : Int
  pts : Option ℚ
  ast : Option ℚ
  reb : Option ℚ
  minVal : ℚ
deriving DecidableEq

/-- A `players` row. -/
structure PlayerRow where
  playerId : Int
  playerName : String
deriving DecidableEq

/-- A `teams` row. -/
structure TeamRow where
  teamId : Int
  teamName : String
deriving DecidableEq

/-- A `ranking` row (the columns the pipeline reads). -/
structure RankingRow where
  teamId : Int
  seasonId : Int
  conference : String
  w : Int
  l : Int
  wPct : ℚ
deriving DecidableEq

/-! ## Cleaning (section 3 of `src/app.py`) -/

/-- One `games` row after `pd.to_numeric(..., errors='coerce')` on
`PTS_home` and `PTS_away` followed by
`dropna(subset=['PTS_home', 'PTS_away'])`: the row survives iff both
cells coerce. -/
def cleanGameRow (r : RawGameRow) : Option GameRow :=
  match coerceNumeric r.ptsHome, coerceNumeric r.ptsAway with
  | some h, some a => some ⟨r.season, r.homeTeamId, h, a⟩
  | _, _ => none

/-- Cleaning of the `games` table (lines 37-39 of `src/app.py`). -/
def cleanGames (rows : List RawGameRow) : List GameRow :=
  rows.filterMap cleanGameRow

/-- The cleaned `games_details` row built from a raw row and the value
`convert_minutes` returned for its `MIN` cell. -/
def mkDetailRow (r : RawDetailRow) (m : ℚ) : DetailRow :=
  ⟨r.playerId, coerceNumeric r.pts, coerceNumeric r.ast, coerceNumeric r.reb, m⟩

/-- Cleaning of the `games_details` table (lines 41-51 of `src/app.py`):
coerce `PTS`/`AST`/`REB`, apply `convert_minutes` to `MIN` (an exception
on any cell aborts the whole pipeline), then `dropna(subset=['MIN'])`.
The per-row `apply` and the `dropna` are fused into one pass, which is
faithful because both act row-independently. -/
def cleanDetails : List RawDetailRow → Except Unit (List DetailRow)
  | [] => .ok []
  | r :: rs =>
    match convert_minutes r.minCell with
    | .error e => .error e
    | .ok none => cleanDetails rs
    | .ok (some m) => (cleanDetails rs).map (fun l => mkDetailRow r m :: l)

/-- The five loaded tables, before cleaning. -/
structure RawTables where
  players : List PlayerRow
  teams : List TeamRow
  games : List RawGameRow
  gameDetails : List RawDetailRow
  ranking : List RankingRow
deriving DecidableEq

/-- The five tables after cleaning. -/
structure CleanTables where
  players : List PlayerRow
  teams : List TeamRow
  games : List GameRow
  gameDetails : List DetailRow
  ranking : List RankingRow
deriving DecidableEq

/-- The whole data-cleaning section: rewrites `games` and
`game_details`; `players`, `teams` and `ranking` are not touched. -/
def cleaner (t : RawTables) : Except Unit CleanTables :=
  (cleanDetails t.gameDetails).map
    (fun d => ⟨t.players, t.teams, cleanGames t.games, d, t.ranking⟩)

/-! ## Aggregation (sections 4 and tab bodies of `src/app.py`) -/

/-- Arithmetic mean of a list of rationals (pandas `mean`); only ever
applied to nonempty lists by the group-bys below. -/
def mean (l : List ℚ) : ℚ :=
  l.sum / l.length

/-- pandas column mean with `skipna`: the mean of the non-null cells,
null when every cell is null. -/
def meanOpt (l : List ℚ) : Option ℚ :=
  if l.isEmpty then none else some (mean l)

/-- The distinct group keys of a column (one output group per distinct
key; the display order of groups is not modelled). -/
def distinctKeys {κ : Type} [DecidableEq κ] (ks : List κ) : List κ :=
  ks.dedup

/-- The `TOTAL_POINTS` of a cleaned game row (line 59). -/
def totalPoints (r : GameRow) : ℚ :=
  r.ptsHome + r.ptsAway

/-- Model of `season_trend` (line 62): group cleaned games by `SEASON`, mean of
`TOTAL_POINTS` per group. -/
def seasonTrend (g : List GameRow) : List (Int × ℚ) :=
  (distinctKeys (g.map (·.season))).map
    (fun s => (s, mean (((g.filter (fun r => r.season == s))).map totalPoints)))

/-- Model of `team_scores` (lines 151-152): filter cleaned games to one season,
group by `HOME_TEAM_ID`, mean `PTS_home` per team. -/
def teamScores (g : List GameRow) (season : Int) : List (Int × ℚ) :=
  let gs := g.filter (fun r => r.season == season)
  (distinctKeys (gs.map (·.homeTeamId))).map
    (fun t => (t, mean ((gs.filter (fun r => r.homeTeamId == t)).map (·.ptsHome))))

/-- One row of the per-player aggregation of `player_stats`. -/
structure AggRow where
  playerId : Int
  ptsMean : Option ℚ
  astMean : Option ℚ
  rebMean : Option ℚ
  minMean : ℚ
deriving DecidableEq

/-- The `groupby("PLAYER_ID").agg(mean)` of `player_stats`
(lines 66-68): per player, the mean of the non-null `PTS`/`AST`/`REB`
cells (pandas skips nulls; all-null gives null) and of `MIN` (never
null on cleaned rows). -/
def playerAgg (d : List DetailRow) : List AggRow :=
  (distinctKeys (d.map (·.playerId))).map (fun pid =>
    let rows := d.filter (fun r => r.playerId == pid)
    ⟨pid, meanOpt (rows.filterMap (·.pts)), meanOpt (rows.filterMap (·.ast)),
      meanOpt (rows.filterMap (·.reb)), mean (rows.map (·.minVal))⟩)

/-- Model of `player_stats` (lines 65-70): the per-player aggregation
inner-joined (`merge`, default `how='inner'`) with `players` on
`PLAYER_ID`. -/
def playerStats (d : List DetailRow) (players : List PlayerRow) :
    List (AggRow × PlayerRow) :=
  (playerAgg d).flatMap (fun a =>
    (players.filter (fun p => p.playerId == a.playerId)).map (fun p => (a, p)))

/-- Model of `home_away_trend` (lines 75-82): per season, mean `PTS_home` and
mean `PTS_away`. -/
def homeAwayTrend (g : List GameRow) : List (Int × ℚ × ℚ) :=
  (distinctKeys (g.map (·.season))).map (fun s =>
    let rows := g.filter (fun r => r.season == s)
    (s, mean (rows.map (·.ptsHome)), mean (rows.map (·.ptsAway))))

/-- One row of the melted home/away table. -/
structure LongRow where
  season : Int
  location : String
  avgPoints : ℚ
deriving DecidableEq

/-- Model of `home_away_long` (lines 84-94): `melt` with
`value_vars=["PTS_home", "PTS_away"]` stacks all `PTS_home` rows then
all `PTS_away` rows, and the `map` renames the variable column to
`"Home"` / `"Away"`. -/
def homeAwayLong (g : List GameRow) : List LongRow :=
  (homeAwayTrend g).map (fun t => ⟨t.1, "Home", t.2.1⟩)
    ++ (homeAwayTrend g).map (fun t => ⟨t.1, "Away", t.2.2⟩)

/-- Model of `team_conf` (line 100): distinct
`(TEAM_ID, CONFERENCE, SEASON_ID)` triples of `ranking` (the order of
`drop_duplicates` output is not modelled). -/
def teamConf (ranking : List RankingRow) : List (Int × String × Int) :=
  (ranking.map (fun r => (r.teamId, r.conference, r.seasonId))).dedup

/-- Model of `conf_games` (lines 102-107): left-join cleaned games to
`team_conf` on `HOME_TEAM_ID = TEAM_ID`; a game row is paired with each
matching triple, and an unmatched game keeps one row with a null
`CONFERENCE`. -/
def confGames (g : List GameRow) (tc : List (Int × String × Int)) :
    List (GameRow × Option String) :=
  g.flatMap (fun r =>
    let ms := tc.filter (fun t => t.1 == r.homeTeamId)
    if ms.isEmpty then [(r, none)]
    else ms.map (fun t => (r, some t.2.1)))

/-- The joined rows with a resolved (non-null) `CONFERENCE`, as
`(SEASON, CONFERENCE, PTS_home)`: exactly the rows pandas
`groupby(["SEASON", "CONFERENCE"])` groups (its default `dropna=True`
discards rows with a null key). -/
def resolvedConf (g : List GameRow) (rk : List RankingRow) :
    List (Int × String × ℚ) :=
  (confGames g (teamConf rk)).filterMap
    (fun rc => rc.2.map (fun c => (rc.1.season, c, rc.1.ptsHome)))

/-- Model of `conf_trend` (lines 109-113): group the resolved joined rows by
`(SEASON, CONFERENCE)` and average `PTS_home`. -/
def confTrend (g : List GameRow) (rk : List RankingRow) :
    List (Int × String × ℚ) :=
  (distinctKeys ((resolvedConf g rk).map (fun x => (x.1, x.2.1)))).map
    (fun k => (k.1, k.2,
      mean (((resolvedConf g rk).filter
        (fun x => x.1 == k.1 && x.2.1 == k.2)).map (fun x => x.2.2))))

/-- A row of the ranking leaderboard (selected columns, line 223). -/
structure RankTuple where
  teamId : Int
  seasonId : Int
  w : Int
  l : Int
  wPct : ℚ
deriving DecidableEq

/-- The sort key of `sort_values(['SEASON_ID', 'W_PCT'],
ascending=False)`: `a` may precede `b` iff `a` is lexicographically
greater-or-equal on `(SEASON_ID, W_PCT)`. -/
def rankLE (a b : RankTuple) : Bool :=
  decide (b.seasonId < a.seasonId)
    || (a.seasonId == b.seasonId && decide (b.wPct ≤ a.wPct))

/-- Model of `ranking_table` (lines 223-224): select
`TEAM_ID, SEASON_ID, W, L, W_PCT` and sort by `SEASON_ID` descending
then `W_PCT` descending.  pandas' multi-column `sort_values` is a
stable lexicographic sort, modelled by the stable `List.mergeSort`. -/
def rankingTable (ranking : List RankingRow) : List RankTuple :=
  (ranking.map (fun r => ⟨r.teamId, r.seasonId, r.w, r.l, r.wPct⟩)).mergeSort rankLE

/-- Reduction of the colon branch of `convert_minutes`: if the cell is
a string with a colon whose colon-split is exactly two parts, each
parsed by `float`, the result is `minutes + seconds / 60`. -/
theorem convert_minutes_colon (s : String) (m sec : List Char) (a b : ℚ)
    (hc : s.toList.contains ':' = true)
    (hsplit : splitOnChar ':' s.toList = [m, sec])
    (hm : parseFloatChars m = some a) (hs : parseFloatChars sec = some b) :
    convert_minutes (.str s) = .ok (some (a + b / 60)) := by
  simp only [convert_minutes, hc, if_true, hsplit, hm, hs]

/-- The value `convert_minutes` computes for `"0:00"` (used twice below). -/
theorem convert_minutes_zero : convert_minutes (.str "0:00") = .ok (some 0) := by
  rw [convert_minutes_colon "0:00" ['0'] ['0','0'] 0 0 (by decide) (by decide)
    (by decide) (by decide)]
  norm_num

/-- C1: a `MIN` string cell with a colon, whose colon-split is a
minutes part and a seconds part each parsing as a number, is converted
to `minutes + seconds / 60`; arithmetic is modelled exactly over `ℚ`,
where the claimed example values are exact: `"12:30"` gives
`25/2 = 12.5`, `"5:9"` gives `103/20 = 5.15` (not `5.09`), `"0:00"`
gives `0`, and the `"0:00"` row is kept by the cleaner since zero is
not null. -/
theorem minutes_colon_parse_exact (s : String) (m sec : List Char) (a b : ℚ)
    (hc : s.toList.contains ':' = true)
    (hsplit : splitOnChar ':' s.toList = [m, sec])
    (hm : parseFloatChars m = some a) (hs : parseFloatChars sec = some b) :
    convert_minutes (.str s) = .ok (some (a + b / 60)) ∧
    convert_minutes (.str "12:30") = .ok (some (25/2)) ∧
    convert_minutes (.str "5:9") = .ok (some (103/20)) ∧
    convert_minutes (.str "0:00") = .ok (some 0) ∧
    cleanDetails [⟨7, .null, .null, .null, .str "0:00"⟩]
      = .ok [⟨7, none, none, none, 0⟩] := by
  refine ⟨convert_minutes_colon s m sec a b hc hsplit hm hs, ?_, ?_,
    convert_minutes_zero, ?_⟩
  · rw [convert_minutes_colon "12:30" ['1','2'] ['3','0'] 12 30 (by decide) (by decide)
      (by decide) (by decide)]
    norm_num
  · rw [convert_minutes_colon "5:9" ['5'] ['9'] 5 9 (by decide) (by decide)
      (by decide) (by decide)]
    norm_num
  · simp [cleanDetails, convert_minutes_zero, mkDetailRow, coerceNumeric, Except.map]

/-- Witness for C1 at the concrete cell `"7:30"`. -/
theorem minutes_colon_parse_exact_inst :
    convert_minutes (.str "7:30") = .ok (some (7 + 30 / 60)) ∧
    convert_minutes (.str "12:30") = .ok (some (25/2)) ∧
    convert_minutes (.str "5:9") = .ok (some (103/20)) ∧
    convert_minutes (.str "0:00") = .ok (some 0) ∧
    cleanDetails [⟨7, .null, .null, .null, .str "0:00"⟩]
      = .ok [⟨7, none, none, none, 0⟩] :=
  minutes_colon_parse_exact "7:30" ['7'] ['3','0'] 7 30 (by decide) (by decide)
    (by decide) (by decide)

/-- C2, counterexample: the `MIN` cell `"ab:cd"` fails to parse, but
instead of being replaced by a null marker it raises a `ValueError`
(from `float('ab')`), so cleaning does raise on a bad cell. -/
theorem convert_minutes_raises_on_bad_colon_cell :
    convert_minutes (.str "ab:cd") = .error () := by rfl

/-- C2, amended: a `PTS_home`/`PTS_away`/`PTS`/`AST`/`REB` cell is
coerced with null on failure and never raises (`coerceNumeric` is a
total function into `Option`), and a `MIN` cell that is not a
colon-containing string falls back to the same plain numeric coercion
with null on failure; but a colon-containing `MIN` string whose parts
do not parse can raise (see the counterexample). -/
theorem clean_cell_null_on_failure_unless_colon (v : Value)
    (h : isColonString v = false) :
    convert_minutes v = .ok (coerceNumeric v) := by
  cases v with
  | str s =>
    simp only [isColonString] at h
    simp only [convert_minutes, coerceNumeric, h, Bool.false_eq_true, if_false]
  | num q => rfl
  | null => rfl

/-- Witness for the amended C2 at the non-colon unparseable cell `"abc"`. -/
theorem clean_cell_null_on_failure_unless_colon_inst :
    convert_minutes (.str "abc") = .ok (coerceNumeric (.str "abc")) :=
  clean_cell_null_on_failure_unless_colon (.str "abc") (by decide)

/-! ## Helper lemmas about cleaning -/

theorem cleanGames_append (l1 l2 : List RawGameRow) :
    cleanGames (l1 ++ l2) = cleanGames l1 ++ cleanGames l2 := by
  simp [cleanGames]

theorem cleanGameRow_eq_none {r : RawGameRow}
    (h : coerceNumeric r.ptsHome = none ∨ coerceNumeric r.ptsAway = none) :
    cleanGameRow r = none := by
  cases hH : coerceNumeric r.ptsHome <;> cases hA : coerceNumeric r.ptsAway <;>
    simp_all [cleanGameRow]

theorem cleanGames_cons_none {r : RawGameRow} (h : cleanGameRow r = none)
    (l : List RawGameRow) : cleanGames (r :: l) = cleanGames l := by
  simp [cleanGames, h]

theorem cleanDetails_drop (d1 : List RawDetailRow) (r : RawDetailRow)
    (d2 : List RawDetailRow) (h : convert_minutes r.minCell = .ok none) :
    cleanDetails (d1 ++ r :: d2) = cleanDetails (d1 ++ d2) := by
  induction d1 with
  | nil => simp only [List.nil_append, cleanDetails, h]
  | cons d ds ih =>
    simp only [List.cons_append, cleanDetails, List.append_eq, ih]

/-- C3: a games row whose `PTS_home` or `PTS_away` does not coerce, and
a game-details row whose `MIN` fails to parse (becomes null), are
excluded from every downstream computation: deleting such a row from
the raw input changes no cleaned table and no derived view, and the
model surfaces no count or warning — the outputs are the only effect. -/
theorem bad_rows_excluded_downstream (g1 g2 : List RawGameRow) (r : RawGameRow)
    (hr : coerceNumeric r.ptsHome = none ∨ coerceNumeric r.ptsAway = none)
    (d1 d2 : List RawDetailRow) (rd : RawDetailRow)
    (hd : convert_minutes rd.minCell = .ok none)
    (s : Int) (rk : List RankingRow) (ps : List PlayerRow) :
    cleanGames (g1 ++ r :: g2) = cleanGames (g1 ++ g2) ∧
    (cleanGames (g1 ++ r :: g2)).map totalPoints
      = (cleanGames (g1 ++ g2)).map totalPoints ∧
    seasonTrend (cleanGames (g1 ++ r :: g2)) = seasonTrend (cleanGames (g1 ++ g2)) ∧
    teamScores (cleanGames (g1 ++ r :: g2)) s = teamScores (cleanGames (g1 ++ g2)) s ∧
    homeAwayLong (cleanGames (g1 ++ r :: g2)) = homeAwayLong (cleanGames (g1 ++ g2)) ∧
    confTrend (cleanGames (g1 ++ r :: g2)) rk = confTrend (cleanGames (g1 ++ g2)) rk ∧
    cleanDetails (d1 ++ rd :: d2) = cleanDetails (d1 ++ d2) ∧
    (cleanDetails (d1 ++ rd :: d2)).map (fun ds => playerStats ds ps)
      = (cleanDetails (d1 ++ d2)).map (fun ds => playerStats ds ps) := by
  have hg : cleanGames (g1 ++ r :: g2) = cleanGames (g1 ++ g2) := by
    rw [cleanGames_append, cleanGames_cons_none (cleanGameRow_eq_none hr),
      ← cleanGames_append]
  have hdet := cleanDetails_drop d1 rd d2 hd
  exact ⟨hg, by rw [hg], by rw [hg], by rw [hg], by rw [hg], by rw [hg],
    hdet, by rw [hdet]⟩

/-- Witness for C3: a 2020 game with `PTS_home = "abc"` is dropped. -/
theorem bad_rows_excluded_downstream_inst :
    cleanGames [⟨2020, 1, .str "abc", .num 90⟩] = cleanGames [] :=
  (bad_rows_excluded_downstream [] [] ⟨2020, 1, .str "abc", .num 90⟩
    (Or.inl (by decide)) [] [] ⟨5, .null, .null, .null, .null⟩ rfl
    2020 [] []).1

/-- C4: the season trend has one row per distinct `SEASON` of the
cleaned games (no duplicates, and a season appears iff some surviving
row has it), each row's value is the mean of `TOTAL_POINTS` over
exactly the surviving rows of that season, and on the spec's scenario
(2020 rows `("110", "105")` and `("abc", "90")`) only the first row
counts, giving mean `215`. -/
theorem season_trend_rows (raw : List RawGameRow) :
    ((seasonTrend (cleanGames raw)).map Prod.fst).Nodup ∧
    (∀ s : Int, (∃ p ∈ seasonTrend (cleanGames raw), p.1 = s) ↔
      ∃ r ∈ cleanGames raw, r.season = s) ∧
    (∀ p ∈ seasonTrend (cleanGames raw),
      p.2 = mean (((cleanGames raw).filter (fun r => r.season == p.1)).map totalPoints)) ∧
    seasonTrend (cleanGames
      [⟨2020, 1, .str "110", .str "105"⟩, ⟨2020, 2, .str "abc", .str "90"⟩])
      = [(2020, 215)] := by
  refine ⟨?_, ?_, ?_, ?_⟩
  · have hcomp : (Prod.fst ∘ fun s : Int =>
        (s, mean (List.map totalPoints
          (List.filter (fun r => r.season == s) (cleanGames raw))))) = id := rfl
    simp only [seasonTrend, distinctKeys, List.map_map, hcomp, List.map_id]
    exact List.nodup_dedup _
  · intro s
    constructor
    · rintro ⟨p, hp, hps⟩
      simp only [seasonTrend, distinctKeys, List.mem_map] at hp
      obtain ⟨k, hk, rfl⟩ := hp
      rw [List.mem_dedup, List.mem_map] at hk
      obtain ⟨r, hr, hrk⟩ := hk
      exact ⟨r, hr, hrk.trans hps⟩
    · rintro ⟨r, hr, hrs⟩
      refine ⟨_, List.mem_map.mpr ⟨s, ?_, rfl⟩, rfl⟩
      simp only [distinctKeys]
      rw [List.mem_dedup, List.mem_map]
      exact ⟨r, hr, hrs⟩
  · intro p hp
    simp only [seasonTrend, distinctKeys, List.mem_map] at hp
    obtain ⟨k, hk, rfl⟩ := hp
    rfl
  · have hclean : cleanGames
        [⟨2020, 1, .str "110", .str "105"⟩, ⟨2020, 2, .str "abc", .str "90"⟩]
        = [⟨2020, 1, 110, 105⟩] := by decide
    rw [hclean]
    have hk : distinctKeys (([(⟨2020, 1, 110, 105⟩ : GameRow)]).map (·.season))
        = [2020] := by decide
    unfold seasonTrend
    rw [hk]
    norm_num [mean, totalPoints, List.filter]

/-- The membership structure of the `player_stats` inner join. -/
theorem mem_playerStats_iff (d : List DetailRow) (players : List PlayerRow)
    (pid : Int) :
    (∃ row ∈ playerStats d players, row.1.playerId = pid) ↔
    ((∃ r ∈ d, r.playerId = pid) ∧ ∃ p ∈ players, p.playerId = pid) := by
  constructor
  · rintro ⟨row, hrow, hid⟩
    simp only [playerStats, List.mem_flatMap] at hrow
    obtain ⟨a, ha, hrow⟩ := hrow
    simp only [List.mem_map, List.mem_filter] at hrow
    obtain ⟨p, ⟨hp, hpid⟩, rfl⟩ := hrow
    simp only [playerAgg, distinctKeys, List.mem_map] at ha
    obtain ⟨k, hk, rfl⟩ := ha
    rw [List.mem_dedup, List.mem_map] at hk
    obtain ⟨r, hr, hrk⟩ := hk
    refine ⟨⟨r, hr, hrk.trans hid⟩, ⟨p, hp, ?_⟩⟩
    have hpk : p.playerId = k := by simpa using hpid
    exact hpk.trans hid
  · rintro ⟨⟨r, hr, hrid⟩, ⟨p, hp, hpid⟩⟩
    have hkey : pid ∈ ((d.map (·.playerId)).dedup) := by
      rw [List.mem_dedup, List.mem_map]
      exact ⟨r, hr, hrid⟩
    refine ⟨(⟨pid,
        meanOpt ((d.filter (fun x => x.playerId == pid)).filterMap (·.pts)),
        meanOpt ((d.filter (fun x => x.playerId == pid)).filterMap (·.ast)),
        meanOpt ((d.filter (fun x => x.playerId == pid)).filterMap (·.reb)),
        mean ((d.filter (fun x => x.playerId == pid)).map (·.minVal))⟩, p), ?_, rfl⟩
    exact List.mem_flatMap.mpr ⟨_, List.mem_map.mpr ⟨pid, hkey, rfl⟩,
      List.mem_map.mpr ⟨p, List.mem_filter.mpr ⟨hp, by simpa using hpid⟩, rfl⟩⟩

/-- C5: `player_stats` is an inner join on `PLAYER_ID`: an id appears
in the output iff it has at least one surviving game-detail row and at
least one matching `players` row (so players with no surviving details,
and detail ids with no player row, are absent). -/
theorem player_stats_inner_join (d : List DetailRow) (players : List PlayerRow)
    (pid : Int) :
    (∃ row ∈ playerStats d players, row.1.playerId = pid) ↔
    ((∃ r ∈ d, r.playerId = pid) ∧ ∃ p ∈ players, p.playerId = pid) :=
  mem_playerStats_iff d players pid

/-- C6: the melted home/away table has exactly two rows per distinct
cleaned `SEASON` (`2 ×` the number of distinct seasons), every row's
`Location` is `"Home"` or `"Away"`, and its `Average Points` is the
per-season mean of `PTS_home` resp. `PTS_away`. -/
theorem home_away_long_shape (g : List GameRow) :
    (homeAwayLong g).length = 2 * ((g.map (·.season)).dedup).length ∧
    ∀ r ∈ homeAwayLong g,
      (r.location = "Home" ∧
        r.avgPoints = mean ((g.filter (fun x => x.season == r.season)).map (·.ptsHome))) ∨
      (r.location = "Away" ∧
        r.avgPoints = mean ((g.filter (fun x => x.season == r.season)).map (·.ptsAway))) := by
  constructor
  · simp only [homeAwayLong, homeAwayTrend, distinctKeys, List.length_append,
      List.length_map]
    omega
  · intro r hr
    rw [homeAwayLong, List.mem_append] at hr
    rcases hr with hr | hr
    · left
      simp only [List.mem_map] at hr
      obtain ⟨t, ht, rfl⟩ := hr
      simp only [homeAwayTrend, distinctKeys, List.mem_map] at ht
      obtain ⟨s, hs, rfl⟩ := ht
      exact ⟨rfl, rfl⟩
    · right
      simp only [List.mem_map] at hr
      obtain ⟨t, ht, rfl⟩ := hr
      simp only [homeAwayTrend, distinctKeys, List.mem_map] at ht
      obtain ⟨s, hs, rfl⟩ := ht
      exact ⟨rfl, rfl⟩

/-- A game whose home team matches no `team_conf` triple contributes no
resolved row: its single joined row has a null `CONFERENCE`, which the
group-by discards. -/
theorem resolvedConf_drop (g1 g2 : List GameRow) (row : GameRow)
    (rk : List RankingRow) (h : ∀ t ∈ teamConf rk, t.1 ≠ row.homeTeamId) :
    resolvedConf (g1 ++ row :: g2) rk = resolvedConf (g1 ++ g2) rk := by
  have hms : (teamConf rk).filter (fun t => t.1 == row.homeTeamId) = [] := by
    rw [List.filter_eq_nil_iff]
    intro t ht
    simpa using h t ht
  simp [resolvedConf, confGames, List.flatMap_append, List.flatMap_cons,
    List.filterMap_append, hms]

/-- C7: the conference trend is computed only over joined rows with a
resolved (non-null) `CONFERENCE`: a game whose home team has no
matching `(TEAM_ID, CONFERENCE, SEASON_ID)` entry contributes to no
`(SEASON, CONFERENCE)` group (deleting it leaves the view unchanged),
and each output row's value is the mean of `PTS_home` over the resolved
rows of its group. -/
theorem conf_trend_resolved_only (g1 g2 : List GameRow) (row : GameRow)
    (rk : List RankingRow) (h : ∀ t ∈ teamConf rk, t.1 ≠ row.homeTeamId)
    (g : List GameRow) (p : Int × String × ℚ) (hp : p ∈ confTrend g rk) :
    confTrend (g1 ++ row :: g2) rk = confTrend (g1 ++ g2) rk ∧
    p.2.2 = mean (((resolvedConf g rk).filter
      (fun x => x.1 == p.1 && x.2.1 == p.2.1)).map (fun x => x.2.2)) := by
  constructor
  · unfold confTrend
    rw [resolvedConf_drop g1 g2 row rk h]
  · simp only [confTrend, distinctKeys, List.mem_map] at hp
    obtain ⟨k, hk, rfl⟩ := hp
    rfl

/-- Witness for C7: a game of team 99 with no ranking entry is dropped
from the conference view. -/
theorem conf_trend_resolved_only_inst :
    confTrend [⟨2020, 99, 100, 90⟩] [⟨1, 2022, "East", 10, 5, 2/3⟩]
      = confTrend [] [⟨1, 2022, "East", 10, 5, 2/3⟩] :=
  (conf_trend_resolved_only [] [] ⟨2020, 99, 100, 90⟩
    [⟨1, 2022, "East", 10, 5, 2/3⟩] (by decide)
    [⟨2020, 1, 100, 90⟩] (2020, "East", 100)
    (by simp [confTrend, resolvedConf, confGames, teamConf, distinctKeys, mean])).1

/-! ## Order facts for the leaderboard sort key -/

theorem rankLE_iff (a b : RankTuple) :
    rankLE a b = true ↔
      (b.seasonId < a.seasonId ∨ (a.seasonId = b.seasonId ∧ b.wPct ≤ a.wPct)) := by
  simp [rankLE, Bool.or_eq_true, Bool.and_eq_true, decide_eq_true_eq, beq_iff_eq]

theorem rankLE_total (a b : RankTuple) : rankLE a b || rankLE b a := by
  rw [Bool.or_eq_true, rankLE_iff, rankLE_iff]
  rcases lt_trichotomy a.seasonId b.seasonId with hlt | heq | hgt
  · exact Or.inr (Or.inl hlt)
  · rcases le_total b.wPct a.wPct with hw | hw
    · exact Or.inl (Or.inr ⟨heq, hw⟩)
    · exact Or.inr (Or.inr ⟨heq.symm, hw⟩)
  · exact Or.inl (Or.inl hgt)

theorem rankLE_trans (a b c : RankTuple) (h1 : rankLE a b = true)
    (h2 : rankLE b c = true) : rankLE a c = true := by
  rw [rankLE_iff] at h1 h2 ⊢
  rcases h1 with h1 | ⟨e1, w1⟩ <;> rcases h2 with h2 | ⟨e2, w2⟩
  · exact Or.inl (h2.trans h1)
  · exact Or.inl (e2 ▸ h1)
  · exact Or.inl (lt_of_lt_of_le h2 e1.ge)
  · exact Or.inr ⟨e1.trans e2, w2.trans w1⟩

/-- C8: the ranking leaderboard is the selected columns sorted
descending by `SEASON_ID` then descending by `W_PCT`: the output is
pairwise in that lexicographic descending order, it is a permutation of
the selected rows, and the sort is stable — for any exact
`(SEASON_ID, W_PCT)` tie class, the output lists its rows in exactly
the original order. -/
theorem ranking_table_sorted_stable (rows : List RankingRow) :
    ((rankingTable rows).Pairwise (fun a b =>
      b.seasonId < a.seasonId ∨ (a.seasonId = b.seasonId ∧ b.wPct ≤ a.wPct))) ∧
    ((rankingTable rows).Perm
      (rows.map (fun r => (⟨r.teamId, r.seasonId, r.w, r.l, r.wPct⟩ : RankTuple)))) ∧
    ∀ (sid : Int) (wp : ℚ),
      (rankingTable rows).filter (fun r => r.seasonId == sid && r.wPct == wp)
        = (rows.map (fun r => (⟨r.teamId, r.seasonId, r.w, r.l, r.wPct⟩ : RankTuple))).filter
            (fun r => r.seasonId == sid && r.wPct == wp) := by
  refine ⟨?_, ?_, ?_⟩
  · exact (List.sorted_mergeSort rankLE_trans rankLE_total _).imp
      (fun hab => (rankLE_iff _ _).mp hab)
  · exact List.mergeSort_perm _ rankLE
  · intro sid wp
    set l := rows.map (fun r => (⟨r.teamId, r.seasonId, r.w, r.l, r.wPct⟩ : RankTuple))
      with hl
    set key : RankTuple → Bool := fun r => r.seasonId == sid && r.wPct == wp with hkey
    have hpair : (l.filter key).Pairwise (fun a b => rankLE a b = true) := by
      apply List.pairwise_of_forall_mem_list
      intro a ha b hb
      rw [List.mem_filter] at ha hb
      have ha2 := ha.2
      have hb2 := hb.2
      simp only [hkey, Bool.and_eq_true, beq_iff_eq] at ha2 hb2
      rw [rankLE_iff]
      exact Or.inr ⟨ha2.1.trans hb2.1.symm, le_of_eq (by rw [hb2.2, ha2.2])⟩
    have hsub : List.Sublist (l.filter key) (l.mergeSort rankLE) :=
      List.sublist_mergeSort rankLE_trans rankLE_total hpair (List.filter_sublist l)
    have hsub2 : List.Sublist (l.filter key) ((l.mergeSort rankLE).filter key) := by
      have h2 := List.Sublist.filter key hsub
      simpa [List.filter_filter] using h2
    have hperm : ((l.mergeSort rankLE).filter key).Perm (l.filter key) :=
      (List.mergeSort_perm l rankLE).filter key
    exact (hsub2.eq_of_length hperm.length_eq.symm).symm

/-- C9: the cleaning stage rewrites only `games` and `game_details`
(into their cleaned versions); `players`, `teams` and `ranking` reach
the aggregation stage unchanged. -/
theorem cleaner_preserves_other_tables (t : RawTables) (ct : CleanTables)
    (h : cleaner t = .ok ct) :
    ct.players = t.players ∧ ct.teams = t.teams ∧ ct.ranking = t.ranking ∧
    ct.games = cleanGames t.games ∧ cleanDetails t.gameDetails = .ok ct.gameDetails := by
  unfold cleaner at h
  cases hd : cleanDetails t.gameDetails with
  | error e =>
    rw [hd] at h
    simp [Except.map] at h
  | ok d =>
    rw [hd] at h
    simp only [Except.map, Except.ok.injEq] at h
    subst h
    exact ⟨rfl, rfl, rfl, rfl, rfl⟩

/-- Witness for C9 on a concrete pipeline state. -/
theorem cleaner_preserves_other_tables_inst :
    (⟨[⟨1, "A"⟩], [⟨2, "B"⟩], [], [], [⟨3, 2020, "East", 1, 0, 1⟩]⟩ : CleanTables).players
      = (⟨[⟨1, "A"⟩], [⟨2, "B"⟩], [], [], [⟨3, 2020, "East", 1, 0, 1⟩]⟩ : RawTables).players ∧
    (⟨[⟨1, "A"⟩], [⟨2, "B"⟩], [], [], [⟨3, 2020, "East", 1, 0, 1⟩]⟩ : CleanTables).teams
      = (⟨[⟨1, "A"⟩], [⟨2, "B"⟩], [], [], [⟨3, 2020, "East", 1, 0, 1⟩]⟩ : RawTables).teams ∧
    (⟨[⟨1, "A"⟩], [⟨2, "B"⟩], [], [], [⟨3, 2020, "East", 1, 0, 1⟩]⟩ : CleanTables).ranking
      = (⟨[⟨1, "A"⟩], [⟨2, "B"⟩], [], [], [⟨3, 2020, "East", 1, 0, 1⟩]⟩ : RawTables).ranking ∧
    (⟨[⟨1, "A"⟩], [⟨2, "B"⟩], [], [], [⟨3, 2020, "East", 1, 0, 1⟩]⟩ : CleanTables).games
      = cleanGames (⟨[⟨1, "A"⟩], [⟨2, "B"⟩], [], [], [⟨3, 2020, "East", 1, 0, 1⟩]⟩ : RawTables).games ∧
    cleanDetails (⟨[⟨1, "A"⟩], [⟨2, "B"⟩], [], [], [⟨3, 2020, "East", 1, 0, 1⟩]⟩ : RawTables).gameDetails
      = .ok (⟨[⟨1, "A"⟩], [⟨2, "B"⟩], [], [], [⟨3, 2020, "East", 1, 0, 1⟩]⟩ : CleanTables).gameDetails :=
  cleaner_preserves_other_tables
    ⟨[⟨1, "A"⟩], [⟨2, "B"⟩], [], [], [⟨3, 2020, "East", 1, 0, 1⟩]⟩
    ⟨[⟨1, "A"⟩], [⟨2, "B"⟩], [], [], [⟨3, 2020, "East", 1, 0, 1⟩]⟩ rfl

/-- A game-details row whose `MIN` parsed to a value survives into the
cleaned table wherever it sat in the input. -/
theorem mem_cleanDetails (d1 : List RawDetailRow) (r : RawDetailRow)
    (d2 : List RawDetailRow) (m : ℚ) (ds : List DetailRow)
    (hm : convert_minutes r.minCell = .ok (some m))
    (hds : cleanDetails (d1 ++ r :: d2) = .ok ds) :
    mkDetailRow r m ∈ ds := by
  induction d1 generalizing ds with
  | nil =>
    simp only [List.nil_append, cleanDetails, hm] at hds
    cases hrec : cleanDetails d2 with
    | error e =>
      rw [hrec] at hds
      simp [Except.map] at hds
    | ok l =>
      rw [hrec] at hds
      simp only [Except.map, Except.ok.injEq] at hds
      rw [← hds]
      exact List.mem_cons_self _ _
  | cons d dtl ih =>
    simp only [List.cons_append, cleanDetails, List.append_eq] at hds
    cases hc : convert_minutes d.minCell with
    | error e => simp [hc] at hds
    | ok o =>
      cases o with
      | none =>
        simp only [hc] at hds
        exact ih ds hds
      | some mv =>
        simp only [hc] at hds
        cases hrec : cleanDetails (dtl ++ r :: d2) with
        | error e =>
          rw [hrec] at hds
          simp [Except.map] at hds
        | ok l =>
          rw [hrec] at hds
          simp only [Except.map, Except.ok.injEq] at hds
          rw [← hds]
          exact List.mem_cons_of_mem _ (ih l hrec)

/-- C10: a game-details row whose `PTS` (or `AST`/`REB`) fails coercion
is retained as long as its `MIN` parses (it reaches the cleaned table
with a null `PTS`), its player still appears in `player_stats` when a
matching `players` row exists, every per-player `PTS` mean is computed
over only that player's non-null cells, and a player whose retained
cells are all null in a column gets a null mean there (concretely:
`⟨7, none, some 3, none, 12⟩` aggregates to itself, with null
`ptsMean`/`rebMean`). -/
theorem bad_pts_row_retained (d1 d2 : List RawDetailRow) (r : RawDetailRow)
    (m : ℚ) (ds : List DetailRow) (players : List PlayerRow) (p : PlayerRow)
    (hpts : coerceNumeric r.pts = none)
    (hmin : convert_minutes r.minCell = .ok (some m))
    (hds : cleanDetails (d1 ++ r :: d2) = .ok ds)
    (hp : p ∈ players) (hpid : p.playerId = r.playerId) :
    mkDetailRow r m ∈ ds ∧
    (mkDetailRow r m).pts = none ∧
    (∃ row ∈ playerStats ds players, row.1.playerId = r.playerId) ∧
    (∀ a ∈ playerAgg ds, a.ptsMean
      = meanOpt ((ds.filter (fun x => x.playerId == a.playerId)).filterMap (·.pts))) ∧
    playerAgg [⟨7, none, some 3, none, 12⟩] = [⟨7, none, some 3, none, 12⟩] := by
  have hmem := mem_cleanDetails d1 r d2 m ds hmin hds
  refine ⟨hmem, ?_, ?_, ?_, ?_⟩
  · simp [mkDetailRow, hpts]
  · exact (mem_playerStats_iff ds players r.playerId).mpr
      ⟨⟨mkDetailRow r m, hmem, rfl⟩, ⟨p, hp, hpid⟩⟩
  · intro a ha
    simp only [playerAgg, distinctKeys, List.mem_map] at ha
    obtain ⟨k, hk, rfl⟩ := ha
    rfl
  · have hk7 : distinctKeys (([(⟨7, none, some 3, none, 12⟩ : DetailRow)]).map
        (·.playerId)) = [7] := by decide
    unfold playerAgg
    rw [hk7]
    simp [meanOpt, mean, List.filterMap]

/-- Witness for C10: a row with unparseable `PTS` and `MIN = 12`. -/
theorem bad_pts_row_retained_inst :
    playerAgg [⟨7, none, some 3, none, 12⟩] = [⟨7, none, some 3, none, 12⟩] :=
  (bad_pts_row_retained [] [] ⟨7, .str "x", .num 3, .null, .num 12⟩ 12
    [⟨7, none, some 3, none, 12⟩] [⟨7, "P"⟩] ⟨7, "P"⟩ (by decide) rfl rfl
    (by simp) rfl).2.2.2.2
